import Mathlib

/-!
Shallow embedding of the elementary graph runtime excerpt:
GraphNode.h (node id rendering, property bag, getters), the filter nodes
CutoffPrewarpNode and MultiMode1p, and the WorkletProcessor.js helper
findTransferables.

Conventions of the embedding:
- C++ double arithmetic is idealized as exact arithmetic (ℚ where the code
  is purely rational, ℝ where std::tan is involved).
- Code that throws (std::string::insert length overflow, property cast,
  invariant) is embedded with Option/Except or an explicit error slot.
- The unordered_map property bag is embedded as a function
  String → Option Value (insert_or_assign = pointwise update).
-/

namespace Elem

/-! ## js::Value (Value.h is not part of the excerpt)

Modelled from the spec: properties are arbitrary typed values (numeric,
string, boolean, or other structured forms); a cast to a requested type
fails (cast error) exactly when the stored value does not have the
requested type. -/

inductive Value where
  | null : Value
  | boolean : Bool → Value
  | number : ℚ → Value
  | string : String → Value
deriving DecidableEq, Repr

inductive VType where
  | null : VType
  | boolean : VType
  | number : VType
  | string : VType
deriving DecidableEq, Repr

def Value.vtype : Value → VType
  | .null => .null
  | .boolean _ => .boolean
  | .number _ => .number
  | .string _ => .string

def Value.isString : Value → Bool
  | .string _ => true
  | _ => false

/-- Modelled from the spec: casting a stored Value to the requested type
succeeds exactly when the stored value already has the requested type, and
otherwise fails with a descriptive cast error. -/
def Value.castTo (t : VType) (v : Value) : Except String Value :=
  if v.vtype = t then Except.ok v else Except.error "bad cast"

/-! ## graphNodeIdToString (GraphNode.h lines 18-26)

The C++ writes the id in std::hex (which renders the two's-complement
unsigned value, i.e. the id mod 2^64, in lowercase hex without leading
zeros), then calls s.insert(0, 8 - s.size(), '0'). The count 8 - s.size()
is computed in the unsigned size_type, so when the hex string is longer
than 8 characters the count wraps around to a huge number and insert
throws std::length_error; this is embedded as the none case. -/

def hexChars (n : ℕ) : List Char := ((Nat.digits 16 n).map Nat.digitChar).reverse

def hexStr (n : ℕ) : List Char := if n = 0 then [Char.ofNat 48] else hexChars n

def graphNodeIdToString (i : ℤ) : Option String :=
  let u : ℕ := (i % (2 ^ 64 : ℤ)).toNat
  let s : List Char := hexStr u
  if s.length ≤ 8 then some (String.mk (List.replicate (8 - s.length) (Char.ofNat 48) ++ s))
  else none

/-- Hexadecimal digit value of a character, used to state the round-trip
property of the rendered id string. -/
def hexVal (c : Char) : ℕ :=
  if 48 ≤ c.toNat ∧ c.toNat ≤ 57 then c.toNat - 48
  else if 97 ≤ c.toNat ∧ c.toNat ≤ 102 then c.toNat - 97 + 10
  else 0

def parseHex (cs : List Char) : ℕ := cs.foldl (fun acc c => 16 * acc + hexVal c) 0

/-! ## GraphNode state (GraphNode.h lines 105-142)

A GraphNode owns nodeId, sampleRate, blockSize and the props map; the
constructor fixes the first three and setProperty only touches props. -/

structure GraphNodeState where
  nodeId : ℤ
  sampleRate : ℚ
  blockSize : ℕ
  props : String → Option Value

/-- GraphNode constructor (GraphNode.h lines 117-122): stores id, sample
rate and block size; the props map starts empty. -/
def GraphNode.create (id : ℤ) (sr : ℚ) (bs : ℕ) : GraphNodeState :=
  { nodeId := id, sampleRate := sr, blockSize := bs, props := fun _ => none }

def GraphNode.getId (s : GraphNodeState) : ℤ := s.nodeId

def GraphNode.getSampleRate (s : GraphNodeState) : ℚ := s.sampleRate

def GraphNode.getBlockSize (s : GraphNodeState) : ℕ := s.blockSize

/-- Base GraphNode::setProperty (GraphNode.h lines 124-127):
props.insert_or_assign(key, val). -/
def GraphNode.setProperty (s : GraphNodeState) (key : String) (val : Value) : GraphNodeState :=
  { s with props := fun k => if k = key then some val else s.props k }

/-- GraphNode::getPropertyWithDefault (GraphNode.h lines 134-142): if the
key is present, cast the stored value to the requested type (throwing on a
type mismatch), otherwise return the default. The method never mutates the
node, so the returned state is the input state. -/
def GraphNode.getPropertyWithDefault (s : GraphNodeState) (t : VType) (key : String)
    (df : Value) : Except String Value × GraphNodeState :=
  (match s.props key with
   | some v => v.castTo t
   | none => Except.ok df, s)

/-- Default GraphNode::processEvents (GraphNode.h line 97) is a no-op on
the node state. -/
def GraphNode.processEvents (s : GraphNodeState) : GraphNodeState := s

/-- Default GraphNode::reset (GraphNode.h line 103) is a no-op. -/
def GraphNode.reset (s : GraphNodeState) : GraphNodeState := s

/-- One control-thread call against a base GraphNode. -/
inductive NodeOp where
  | setProp : String → Value → NodeOp
  | getProp : VType → String → Value → NodeOp
  | procEvents : NodeOp
  | reset : NodeOp

def GraphNode.applyOp (s : GraphNodeState) : NodeOp → GraphNodeState
  | .setProp k v => GraphNode.setProperty s k v
  | .getProp t k df => (GraphNode.getPropertyWithDefault s t k df).2
  | .procEvents => GraphNode.processEvents s
  | .reset => GraphNode.reset s

def GraphNode.applyOps (s : GraphNodeState) (ops : List NodeOp) : GraphNodeState :=
  ops.foldl GraphNode.applyOp s

/-! ## CutoffPrewarpNode (part_000 lines 10-37)

Per block: if numInputChannels < 1, zero-fill the output; otherwise for
each sample compute tan(2 pi fc T / 2) with T = 1 / sampleRate and fc the
current sample of input channel 0. The double arithmetic and std::tan are
idealized over ℝ. Input channels are lists; out-of-range reads (which the
C++ contract forbids on well-formed blocks) default to 0. -/

noncomputable def cutoffPrewarpProcess (sampleRate : ℝ) (inputData : List (List ℝ))
    (numChannels numSamples : ℕ) : List ℝ :=
  if numChannels < 1 then List.replicate numSamples 0
  else
    let T : ℝ := 1 / sampleRate
    (List.range numSamples).map (fun i =>
      let fc := (inputData.getD 0 []).getD i 0
      Real.tan (2 * Real.pi * fc * T / 2))

/-! ## MultiMode1p (part_000 lines 39-106) -/

inductive Mode where
  | Low : Mode
  | High : Mode
  | All : Mode
deriving DecidableEq, Repr

/-- Output derivation selected once per block from the loaded mode
(part_000 lines 76-80). -/
def deriveOutput (m : Mode) (lp xn : ℚ) : ℚ :=
  match m with
  | .Low => lp
  | .High => xn - lp
  | .All => lp + lp - xn

/-- std::clamp(v, lo, hi): lo if v < lo, hi if hi < v, otherwise v. -/
def clampQ (v lo hi : ℚ) : ℚ := if v < lo then lo else if hi < v then hi else v

/-- Instantaneous gain of the one-pole filter (part_000 lines 84-88): the
cutoff sample is clamped to [0, 0.9999] and G = g / (1 + g). -/
def instGain (cutoff : ℚ) : ℚ :=
  let g := clampQ cutoff 0 (9999 / 10000)
  g / (1 + g)

/-- One iteration of the per-sample loop (part_000 lines 83-97): returns
the output sample and the updated filter state z. -/
def multiModeStep (m : Mode) (z cutoff xn : ℚ) : ℚ × ℚ :=
  let G := instGain cutoff
  let v := (xn - z) * G
  let lp := v + z
  (deriveOutput m lp xn, lp + v)

def multiModeLoop (m : Mode) : ℚ → List (ℚ × ℚ) → List ℚ × ℚ
  | z, [] => ([], z)
  | z, (c, x) :: rest =>
    let step := multiModeStep m z c x
    let tail := multiModeLoop m step.2 rest
    (step.1 :: tail.1, tail.2)

/-- MultiMode1p node state: the base GraphNode state plus the atomic mode
cell (initialized to Mode::Low) and the filter memory z (part_000 lines
100-105). -/
structure MMNode where
  base : GraphNodeState
  mode : Mode
  z : ℚ

def MultiMode1p.create (id : ℤ) (sr : ℚ) (bs : ℕ) : MMNode :=
  { base := GraphNode.create id sr bs, mode := Mode.Low, z := 0 }

/-- MultiMode1p::setProperty (part_000 lines 49-61). On key mode the
invariant requires a string value (Invariant.h is not in the excerpt;
modelled from the spec: a failed invariant fails immediately at the call
site with its descriptive error and the throw happens before any state
mutation, so the prior state is returned alongside the error). A
recognized mode string returns early after storing only to the mode cell;
any other key or unrecognized string falls through to the base
GraphNode::setProperty. -/
def MultiMode1p.setProperty (s : MMNode) (key : String) (val : Value) :
    MMNode × Option String :=
  if key = "mode" then
    match val with
    | .string m =>
      if m = "lowpass" then ({ s with mode := Mode.Low }, none)
      else if m = "highpass" then ({ s with mode := Mode.High }, none)
      else if m = "allpass" then ({ s with mode := Mode.All }, none)
      else ({ s with base := GraphNode.setProperty s.base key val }, none)
    | _ => (s, some "mode prop must be a string")
  else ({ s with base := GraphNode.setProperty s.base key val }, none)

/-- MultiMode1p::process (part_000 lines 63-98): zero-fill when fewer than
2 input channels; otherwise load the mode once, then run the one-pole
filter across the block reading cutoff from channel 0 and audio from
channel 1. Returns the output block and the final filter state z. -/
def multiMode1pProcess (s : MMNode) (inputData : List (List ℚ))
    (numChannels numSamples : ℕ) : List ℚ × ℚ :=
  if numChannels < 2 then (List.replicate numSamples 0, s.z)
  else
    let m := s.mode
    let pairs := (List.range numSamples).map (fun i =>
      ((inputData.getD 0 []).getD i 0, (inputData.getD 1 []).getD i 0))
    multiModeLoop m s.z pairs

/-! ## findTransferables (WorkletProcessor.js lines 19-33)

JavaScript values are embedded as a tree: a Float32Array is identified by
the identity of its backing ArrayBuffer (a ℕ tag); objects carry their own
enumerable string keys in insertion order, matching Object.keys. Note that
in JavaScript, typeof null evaluates to the string object, so null reaches
the Object.keys call, which throws a TypeError on null; this is embedded
as the error case. -/

inductive JVal where
  | vnull : JVal
  | undef : JVal
  | boolean : Bool → JVal
  | number : ℚ → JVal
  | str : String → JVal
  | f32arr : ℕ → JVal
  | arr : List JVal → JVal
  | obj : List (String × JVal) → JVal

mutual

def findTransferables : JVal → Except String (List ℕ)
  | .f32arr b => Except.ok [b]
  | .vnull => Except.error "TypeError: Cannot convert undefined or null to object"
  | .arr xs => ftList xs
  | .obj fs => ftFields fs
  | .undef => Except.ok []
  | .boolean _ => Except.ok []
  | .number _ => Except.ok []
  | .str _ => Except.ok []

def ftList : List JVal → Except String (List ℕ)
  | [] => Except.ok []
  | x :: xs =>
    match findTransferables x with
    | Except.error e => Except.error e
    | Except.ok a =>
      match ftList xs with
      | Except.error e => Except.error e
      | Except.ok b => Except.ok (a ++ b)

def ftFields : List (String × JVal) → Except String (List ℕ)
  | [] => Except.ok []
  | f :: fs =>
    match findTransferables f.2 with
    | Except.error e => Except.error e
    | Except.ok a =>
      match ftFields fs with
      | Except.error e => Except.error e
      | Except.ok b => Except.ok (a ++ b)

end

/-! Claim-side (specification) definitions for C9: the ArrayBuffers backing
the Float32Array instances reachable through arrays and object properties,
in depth-first left-to-right order, and the predicate that null does not
occur in the value. -/

mutual

def transferablesSpec : JVal → List ℕ
  | .f32arr b => [b]
  | .arr xs => tsList xs
  | .obj fs => tsFields fs
  | _ => []

def tsList : List JVal → List ℕ
  | [] => []
  | x :: xs => transferablesSpec x ++ tsList xs

def tsFields : List (String × JVal) → List ℕ
  | [] => []
  | f :: fs => transferablesSpec f.2 ++ tsFields fs

end

mutual

def nullFree : JVal → Bool
  | .vnull => false
  | .arr xs => nfList xs
  | .obj fs => nfFields fs
  | _ => true

def nfList : List JVal → Bool
  | [] => true
  | x :: xs => nullFree x && nfList xs

def nfFields : List (String × JVal) → Bool
  | [] => true
  | f :: fs => nullFree f.2 && nfFields fs

end

/-! ## Concrete nodes used by witnesses and counterexamples -/

def mm0 : MMNode := MultiMode1p.create 0 48000 128

def mm1 : MMNode := MultiMode1p.create 1 48000 128

def gn0 : GraphNodeState := GraphNode.create 0 48000 128

def gnCutoff : GraphNodeState :=
  GraphNode.setProperty (GraphNode.create 0 48000 128) "cutoff" (Value.number 3)

/-! ## Helper lemmas for the hex rendering of node ids -/

lemma hexVal_digitChar (d : ℕ) (hd : d < 16) : hexVal (Nat.digitChar d) = d := by
  have h : ∀ e < 16, hexVal (Nat.digitChar e) = e := by decide
  exact h d hd

lemma parseHex_replicate48 : ∀ (k : ℕ) (cs : List Char),
    parseHex (List.replicate k (Char.ofNat 48) ++ cs) = parseHex cs := by
  intro k
  induction k with
  | zero => intro cs; rfl
  | succ n ih =>
    intro cs
    have h0 : 16 * 0 + hexVal (Char.ofNat 48) = 0 := by decide
    simp only [parseHex] at ih ⊢
    rw [List.replicate_succ, List.cons_append, List.foldl_cons, h0, ih cs]

lemma parseHex_append_singleton (cs : List Char) (c : Char) :
    parseHex (cs ++ [c]) = 16 * parseHex cs + hexVal c := by
  simp only [parseHex, List.foldl_append, List.foldl_cons, List.foldl_nil]

lemma parseHex_reverse_map : ∀ (l : List ℕ), (∀ d ∈ l, d < 16) →
    parseHex ((l.map Nat.digitChar).reverse) = Nat.ofDigits 16 l := by
  intro l
  induction l with
  | nil => intro _; rfl
  | cons d t ih =>
    intro h
    rw [List.map_cons, List.reverse_cons, parseHex_append_singleton,
      ih (fun x hx => h x (List.mem_cons_of_mem _ hx)),
      hexVal_digitChar d (h d (List.mem_cons_self _ _)), Nat.ofDigits_cons]
    ring

lemma parseHex_hexStr (n : ℕ) : parseHex (hexStr n) = n := by
  by_cases hn : n = 0
  · subst hn; decide
  · simp only [hexStr, if_neg hn, hexChars]
    rw [parseHex_reverse_map _ (fun d hd => Nat.digits_lt_base (by norm_num) hd),
      Nat.ofDigits_digits]

lemma hexStr_length_le (n : ℕ) (h : n < 2 ^ 32) : (hexStr n).length ≤ 8 := by
  by_cases hn : n = 0
  · subst hn; simp [hexStr]
  · simp only [hexStr, if_neg hn, hexChars, List.length_reverse, List.length_map]
    rw [Nat.digits_len 16 n (by norm_num) hn]
    have h16 : n < 16 ^ 8 := by norm_num at h ⊢; exact h
    have := Nat.log_lt_of_lt_pow hn h16
    omega

lemma hexStr_length_2pow32 : (hexStr (2 ^ 32)).length = 9 := by
  simp only [hexStr, if_neg (by norm_num : ¬ (2 ^ 32 : ℕ) = 0), hexChars,
    List.length_reverse, List.length_map]
  rw [Nat.digits_len 16 _ (by norm_num) (by norm_num)]
  have hlog : Nat.log 16 (2 ^ 32) = 8 :=
    Nat.log_eq_of_pow_le_of_lt_pow (by norm_num) (by norm_num)
  omega

/-! ## Claim C2 -/

/-- C2 counterexample: graphNodeIdToString does not return an 8-character
string for every 64-bit id. At id = 2^32 the hex rendering has 9 digits,
so the padding count 8 - size wraps around in size_type and the string
insertion fails (std::length_error); the call does not return a string. -/
theorem graphNodeIdToString_fails_at_2pow32 : graphNodeIdToString (2 ^ 32 : ℤ) = none := by
  have he : ((2 : ℤ) ^ 32) % 2 ^ 64 = 2 ^ 32 := Int.emod_eq_of_lt (by norm_num) (by norm_num)
  have ht : (((2 : ℤ) ^ 32) % 2 ^ 64).toNat = 2 ^ 32 := by rw [he]; rfl
  simp only [graphNodeIdToString, ht]
  rw [if_neg]
  rw [hexStr_length_2pow32]
  norm_num

/-- C2 amended: for ids in [0, 2^32) — in particular every id whose hex
form has at most 8 digits — graphNodeIdToString succeeds and returns an
8-character zero-padded hexadecimal rendering of the id: the returned
string has length 8 and parses back (base 16) to the id. For ids at or
above 2^32 and for negative ids, whose unsigned hex rendering exceeds 8
digits, the padding count underflows and the call fails instead. -/
theorem graphNodeIdToString_pads_small_ids (i : ℤ) (h0 : 0 ≤ i) (h1 : i < 2 ^ 32) :
    ∃ s : String, graphNodeIdToString i = some s ∧ s.length = 8 ∧ parseHex s.data = i.toNat := by
  have he : i % 2 ^ 64 = i := Int.emod_eq_of_lt h0 (lt_trans h1 (by norm_num))
  have hu : i.toNat < 2 ^ 32 := by
    have h32 : i < 4294967296 := by norm_num at h1; exact h1
    norm_num
    omega
  have hlen := hexStr_length_le i.toNat hu
  refine ⟨String.mk (List.replicate (8 - (hexStr i.toNat).length) (Char.ofNat 48) ++
    hexStr i.toNat), ?_, ?_, ?_⟩
  · simp only [graphNodeIdToString, he]
    rw [if_pos hlen]
  · simp only [String.length_mk, List.length_append, List.length_replicate]
    omega
  · show parseHex (List.replicate _ _ ++ _) = i.toNat
    rw [parseHex_replicate48, parseHex_hexStr]

/-- C2 witness: the amended theorem applied at the concrete id 255,
whose rendering is 000000ff. -/
theorem graphNodeIdToString_pads_small_ids_witness :
    ∃ s : String, graphNodeIdToString 255 = some s ∧ s.length = 8 ∧
      parseHex s.data = (255 : ℤ).toNat :=
  graphNodeIdToString_pads_small_ids 255 (by norm_num) (by norm_num)

/-! ## Claim C1 -/

/-- C1 counterexample: MultiMode1p::setProperty with key mode and the
recognized value lowpass succeeds (no error), yet the value is not stored
in the property bag: getPropertyWithDefault then returns the fallback
default, not the stored value. -/
theorem multiMode1p_mode_not_in_props :
    (MultiMode1p.setProperty mm0 "mode" (Value.string "lowpass")).2 = none ∧
    (GraphNode.getPropertyWithDefault
        (MultiMode1p.setProperty mm0 "mode" (Value.string "lowpass")).1.base
        VType.string "mode" (Value.string "fallback")).1 = Except.ok (Value.string "fallback") ∧
    Value.string "fallback" ≠ Value.string "lowpass" := by
  refine ⟨rfl, rfl, by decide⟩

/-- C1 amended: the default GraphNode::setProperty stores the value in the
property bag, and getPropertyWithDefault at the stored value's type then
returns the stored value rather than the default; but MultiMode1p's
override for key mode with a recognized value (lowpass, highpass,
allpass) stores the translated value only into the atomic mode cell,
leaving the whole base node state — in particular the property bag —
unchanged, so a later getPropertyWithDefault returns the default. -/
theorem setProperty_stores_except_multiMode1p_mode :
    (∀ (s : GraphNodeState) (key : String) (val df : Value) (t : VType), val.vtype = t →
      (GraphNode.getPropertyWithDefault (GraphNode.setProperty s key val) t key df).1 =
        Except.ok val) ∧
    (∀ (s : MMNode) (m : String), m = "lowpass" ∨ m = "highpass" ∨ m = "allpass" →
      (MultiMode1p.setProperty s "mode" (Value.string m)).2 = none ∧
      (MultiMode1p.setProperty s "mode" (Value.string m)).1.base = s.base) := by
  constructor
  · intro s key val df t h
    simp [GraphNode.setProperty, GraphNode.getPropertyWithDefault, Value.castTo, h]
  · intro s m hm
    rcases hm with h | h | h <;> subst h <;> simp [MultiMode1p.setProperty]

/-- C1 witness: the amended theorem at concrete inputs — a gain property
stored through the base setProperty is read back, and a highpass mode set
through the MultiMode1p override succeeds while leaving the base state
untouched. -/
theorem setProperty_stores_except_multiMode1p_mode_witness :
    (GraphNode.getPropertyWithDefault
        (GraphNode.setProperty gn0 "gain" (Value.number (1 / 2)))
        VType.number "gain" (Value.number 0)).1 = Except.ok (Value.number (1 / 2)) ∧
    ((MultiMode1p.setProperty mm0 "mode" (Value.string "highpass")).2 = none ∧
      (MultiMode1p.setProperty mm0 "mode" (Value.string "highpass")).1.base = mm0.base) :=
  ⟨setProperty_stores_except_multiMode1p_mode.1 gn0 "gain" (Value.number (1 / 2))
      (Value.number 0) VType.number rfl,
    setProperty_stores_except_multiMode1p_mode.2 mm0 "highpass" (Or.inr (Or.inl rfl))⟩

/-! ## Claim C3 -/

/-- C3: getPropertyWithDefault returns the default when no property is
stored under the key; returns the stored value when its type matches the
requested type; and fails with a cast error exactly when the stored value
does not convert to the requested type. In every case the returned node
state — in particular the property bag — is the unchanged input state. -/
theorem getPropertyWithDefault_behavior (s : GraphNodeState) (t : VType) (key : String)
    (df : Value) :
    (s.props key = none → GraphNode.getPropertyWithDefault s t key df = (Except.ok df, s)) ∧
    (∀ v, s.props key = some v → v.vtype = t →
      GraphNode.getPropertyWithDefault s t key df = (Except.ok v, s)) ∧
    (∀ v, s.props key = some v → ¬ v.vtype = t →
      GraphNode.getPropertyWithDefault s t key df = (Except.error "bad cast", s)) := by
  refine ⟨?_, ?_, ?_⟩
  · intro h
    simp [GraphNode.getPropertyWithDefault, h]
  · intro v h ht
    simp [GraphNode.getPropertyWithDefault, h, Value.castTo, ht]
  · intro v h ht
    simp [GraphNode.getPropertyWithDefault, h, Value.castTo, ht]

/-- C3 witness: the three branches at concrete nodes — a missing key
falls back to the default, a stored number read as a number comes back,
and a stored number read as a string fails the cast with the bag
unchanged. -/
theorem getPropertyWithDefault_behavior_witness :
    GraphNode.getPropertyWithDefault gn0 VType.number "cutoff" (Value.number 7) =
      (Except.ok (Value.number 7), gn0) ∧
    GraphNode.getPropertyWithDefault gnCutoff VType.number "cutoff" (Value.number 7) =
      (Except.ok (Value.number 3), gnCutoff) ∧
    GraphNode.getPropertyWithDefault gnCutoff VType.string "cutoff" (Value.string "x") =
      (Except.error "bad cast", gnCutoff) :=
  ⟨(getPropertyWithDefault_behavior gn0 VType.number "cutoff" (Value.number 7)).1 rfl,
    (getPropertyWithDefault_behavior gnCutoff VType.number "cutoff" (Value.number 7)).2.1
      (Value.number 3) rfl rfl,
    (getPropertyWithDefault_behavior gnCutoff VType.string "cutoff" (Value.string "x")).2.2
      (Value.number 3) rfl (by decide)⟩

/-! ## Claim C6 -/

lemma applyOp_preserves_identity (s : GraphNodeState) (op : NodeOp) :
    (GraphNode.applyOp s op).nodeId = s.nodeId ∧
    (GraphNode.applyOp s op).sampleRate = s.sampleRate ∧
    (GraphNode.applyOp s op).blockSize = s.blockSize := by
  cases op <;> simp [GraphNode.applyOp, GraphNode.setProperty,
    GraphNode.getPropertyWithDefault, GraphNode.processEvents, GraphNode.reset]

lemma applyOps_preserves_identity : ∀ (ops : List NodeOp) (s : GraphNodeState),
    (GraphNode.applyOps s ops).nodeId = s.nodeId ∧
    (GraphNode.applyOps s ops).sampleRate = s.sampleRate ∧
    (GraphNode.applyOps s ops).blockSize = s.blockSize := by
  intro ops
  induction ops with
  | nil => intro s; exact ⟨rfl, rfl, rfl⟩
  | cons op rest ih =>
    intro s
    have h1 := applyOp_preserves_identity s op
    have h2 := ih (GraphNode.applyOp s op)
    simp only [GraphNode.applyOps, List.foldl_cons] at h2 ⊢
    exact ⟨h2.1.trans h1.1, h2.2.1.trans h1.2.1, h2.2.2.trans h1.2.2⟩

/-- C6: a node's id, sample rate and block size are fixed at construction:
after any sequence of setProperty, getPropertyWithDefault, processEvents
and reset calls, getId, getSampleRate and getBlockSize return exactly the
constructor arguments. -/
theorem node_identity_fixed (id : ℤ) (sr : ℚ) (bs : ℕ) (ops : List NodeOp) :
    GraphNode.getId (GraphNode.applyOps (GraphNode.create id sr bs) ops) = id ∧
    GraphNode.getSampleRate (GraphNode.applyOps (GraphNode.create id sr bs) ops) = sr ∧
    GraphNode.getBlockSize (GraphNode.applyOps (GraphNode.create id sr bs) ops) = bs :=
  applyOps_preserves_identity ops (GraphNode.create id sr bs)

/-! ## Claim C7 -/

/-- C7: MultiMode1p::setProperty with key mode and a non-string value
fails immediately with the descriptive error of its invariant, and the
node state it leaves behind is exactly the prior state: the mode cell and
the property bag are unchanged. -/
theorem multiMode1p_setProperty_nonstring (s : MMNode) (val : Value)
    (h : val.isString = false) :
    MultiMode1p.setProperty s "mode" val = (s, some "mode prop must be a string") := by
  cases val with
  | string m => simp [Value.isString] at h
  | null => simp [MultiMode1p.setProperty]
  | boolean b => simp [MultiMode1p.setProperty]
  | number q => simp [MultiMode1p.setProperty]

/-- C7 witness: setting mode to the number 3 on a concrete node fails with
the descriptive error and returns the node unchanged. -/
theorem multiMode1p_setProperty_nonstring_witness :
    MultiMode1p.setProperty mm1 "mode" (Value.number 3) =
      (mm1, some "mode prop must be a string") :=
  multiMode1p_setProperty_nonstring mm1 (Value.number 3) rfl

/-! ## Claim C4 -/

/-- C4: with fewer input channels than required (fewer than 1 for
CutoffPrewarpNode, fewer than 2 for MultiMode1p) the node writes exactly
numSamples zero samples; the output is the same for every input block, so
no input sample is read. -/
theorem process_zero_fills_on_missing_inputs :
    (∀ (sr : ℝ) (inputData : List (List ℝ)) (nc ns : ℕ), nc < 1 →
      cutoffPrewarpProcess sr inputData nc ns = List.replicate ns 0) ∧
    (∀ (s : MMNode) (inputData : List (List ℚ)) (nc ns : ℕ), nc < 2 →
      (multiMode1pProcess s inputData nc ns).1 = List.replicate ns 0) := by
  constructor
  · intro sr inputData nc ns h
    simp [cutoffPrewarpProcess, h]
  · intro s inputData nc ns h
    simp [multiMode1pProcess, h]

/-- C4 witness: both nodes at concrete channel counts below their
requirement produce a block of zeros. -/
theorem process_zero_fills_on_missing_inputs_witness :
    cutoffPrewarpProcess 44100 [] 0 3 = List.replicate 3 0 ∧
    (multiMode1pProcess mm0 [[1, 2, 3]] 1 3).1 = List.replicate 3 0 :=
  ⟨process_zero_fills_on_missing_inputs.1 44100 [] 0 3 (by norm_num),
    process_zero_fills_on_missing_inputs.2 mm0 [[1, 2, 3]] 1 3 (by norm_num)⟩

/-! ## Claim C5 -/

/-- C5: with at least one input channel, CutoffPrewarpNode computes the
prewarped coefficient per sample from the audio input: sample i of the
output equals tan(2 pi fc T / 2) with fc the current sample of input
channel 0 and T = 1 / sampleRate, depending only on that sample and the
fixed sample rate. -/
theorem cutoffPrewarp_recomputes_per_sample (sr : ℝ) (inputData : List (List ℝ))
    (nc ns : ℕ) (hch : 1 ≤ nc) (i : ℕ) (hi : i < ns) :
    (cutoffPrewarpProcess sr inputData nc ns).getD i 0 =
      Real.tan (2 * Real.pi * ((inputData.getD 0 []).getD i 0) * (1 / sr) / 2) := by
  have hnc : ¬ nc < 1 := by omega
  simp only [cutoffPrewarpProcess, if_neg hnc]
  rw [List.getD_eq_getElem _ _ (by simpa using hi)]
  simp

/-- C5 witness: the theorem at a concrete block — sample rate 1, one
channel holding the single cutoff sample 0 — where the coefficient is
tan 0 = 0. -/
theorem cutoffPrewarp_recomputes_per_sample_witness :
    (cutoffPrewarpProcess 1 [[0]] 1 1).getD 0 0 = 0 := by
  have h := cutoffPrewarp_recomputes_per_sample 1 [[0]] 1 1 (by norm_num) 0 (by norm_num)
  simpa using h

/-! ## Claim C10 -/

/-- C10: the clamped coefficient lies in [0, 0.9999], hence the divisor
1 + g computed by MultiMode1p's per-sample loop is at least 1 (never
zero) and the instantaneous gain G = g / (1 + g) lies in [0, 1/2). -/
theorem instGain_bounds (x : ℚ) :
    0 ≤ clampQ x 0 (9999 / 10000) ∧ clampQ x 0 (9999 / 10000) ≤ 9999 / 10000 ∧
    1 ≤ 1 + clampQ x 0 (9999 / 10000) ∧ 0 ≤ instGain x ∧ instGain x < 1 / 2 := by
  have h1 : 0 ≤ clampQ x 0 (9999 / 10000) := by
    unfold clampQ
    split_ifs with ha hb
    · norm_num
    · norm_num
    · exact not_lt.mp ha
  have h2 : clampQ x 0 (9999 / 10000) ≤ 9999 / 10000 := by
    unfold clampQ
    split_ifs with ha hb
    · norm_num
    · norm_num
    · exact not_lt.mp hb
  have h4 : (0 : ℚ) < 1 + clampQ x 0 (9999 / 10000) := by linarith
  have h5 : instGain x = clampQ x 0 (9999 / 10000) / (1 + clampQ x 0 (9999 / 10000)) := rfl
  refine ⟨h1, h2, by linarith, ?_, ?_⟩
  · rw [h5]
    exact div_nonneg h1 (le_of_lt h4)
  · rw [h5, div_lt_iff₀ h4]
    nlinarith [h2]

/-! ## Claim C9 -/

mutual

theorem findTransferables_ok : ∀ (v : JVal), nullFree v = true →
    findTransferables v = Except.ok (transferablesSpec v)
  | JVal.vnull, h => by simp [nullFree] at h
  | JVal.undef, _ => by simp [findTransferables, transferablesSpec]
  | JVal.boolean b, _ => by simp [findTransferables, transferablesSpec]
  | JVal.number q, _ => by simp [findTransferables, transferablesSpec]
  | JVal.str s, _ => by simp [findTransferables, transferablesSpec]
  | JVal.f32arr b, _ => by simp [findTransferables, transferablesSpec]
  | JVal.arr xs, h => by
    have hx : nfList xs = true := by simpa [nullFree] using h
    simp [findTransferables, transferablesSpec, ftList_ok xs hx]
  | JVal.obj fs, h => by
    have hf : nfFields fs = true := by simpa [nullFree] using h
    simp [findTransferables, transferablesSpec, ftFields_ok fs hf]

theorem ftList_ok : ∀ (xs : List JVal), nfList xs = true →
    ftList xs = Except.ok (tsList xs)
  | [], _ => by simp [ftList, tsList]
  | x :: xs, h => by
    have hsplit : nullFree x = true ∧ nfList xs = true := by
      simpa [nfList, Bool.and_eq_true] using h
    simp [ftList, tsList, findTransferables_ok x hsplit.1, ftList_ok xs hsplit.2]

theorem ftFields_ok : ∀ (fs : List (String × JVal)), nfFields fs = true →
    ftFields fs = Except.ok (tsFields fs)
  | [], _ => by simp [ftFields, tsFields]
  | f :: fs, h => by
    have hsplit : nullFree f.2 = true ∧ nfFields fs = true := by
      simpa [nfFields, Bool.and_eq_true] using h
    simp [ftFields, tsFields, findTransferables_ok f.2 hsplit.1, ftFields_ok fs hsplit.2]

end

/-- C9 counterexample: findTransferables does not terminate without
throwing on every value: at null, typeof null is the string object and
null is not an array, so the code reaches Object.keys(null), which throws
a TypeError. -/
theorem findTransferables_throws_on_null :
    findTransferables JVal.vnull =
      Except.error "TypeError: Cannot convert undefined or null to object" := by
  simp [findTransferables]

/-- C9 amended: for every value in which null does not occur (at the top
level or nested inside arrays and object properties), findTransferables
terminates without throwing and returns exactly the buffers backing the
Float32Array instances reachable through arrays and object properties, in
depth-first order. -/
theorem findTransferables_total_on_nullFree (v : JVal) (h : nullFree v = true) :
    findTransferables v = Except.ok (transferablesSpec v) :=
  findTransferables_ok v h

/-- C9 witness: the amended theorem at a concrete nested value holding two
Float32Arrays, one directly in an array and one behind an object
property. -/
theorem findTransferables_total_on_nullFree_witness :
    findTransferables (JVal.arr [JVal.f32arr 3, JVal.obj [("a", JVal.f32arr 5)]]) =
      Except.ok [3, 5] := by
  have h := findTransferables_total_on_nullFree
    (JVal.arr [JVal.f32arr 3, JVal.obj [("a", JVal.f32arr 5)]])
    (by simp [nullFree, nfList, nfFields])
  simpa [transferablesSpec, tsList, tsFields] using h

end Elem

